import Mathlib

/-!
Shallow embedding of the NutriTrack nutrition calculation engine:
`src/types/nutrition.ts` (target calculator) and
`src/lib/nutritionCalculator.ts` (quantity converter).

JavaScript numbers are modelled as rationals (`ℚ`); `Math.round` is
round-half-toward-positive-infinity, i.e. `⌊x + 1/2⌋`.
-/

namespace NutriTrack

inductive Gender
| male | female | other
deriving DecidableEq, Repr

inductive ActivityLevel
| sedentary | lightly_active | moderately_active | very_active | extra_active
deriving DecidableEq, Repr

inductive GoalType
| lose | maintain | gain
deriving DecidableEq, Repr

inductive FoodCategory
| fruits | vegetables | proteins | grains | dairy | fats | beverages | snacks | custom
deriving DecidableEq, Repr

/-- JavaScript `Math.round`: round half toward positive infinity. -/
def jsRound (x : ℚ) : ℤ := ⌊x + 1/2⌋

/-- `roundToDecimal` from `nutritionCalculator.ts`:
`Math.round(value * factor) / factor` with `factor = 10^decimals`. -/
def roundToDecimal (value : ℚ) (decimals : ℕ) : ℚ :=
  (jsRound (value * 10 ^ decimals) : ℚ) / 10 ^ decimals

/-- `calculateBMR` from `nutrition.ts` (Mifflin-St Jeor):
`base = 10*weight + 6.25*height - 5*age`, plus 5 for males, minus 161 otherwise. -/
def calculateBMR (weight height age : ℚ) (gender : Gender) : ℚ :=
  let base := 10 * weight + 6.25 * height - 5 * age
  match gender with
  | .male => base + 5
  | _ => base - 161

/-- `ACTIVITY_MULTIPLIERS` table from `nutrition.ts`. -/
def ACTIVITY_MULTIPLIERS : ActivityLevel → ℚ
  | .sedentary => 1.2
  | .lightly_active => 1.375
  | .moderately_active => 1.55
  | .very_active => 1.725
  | .extra_active => 1.9

/-- Position of an activity level in the order
`sedentary < lightly_active < moderately_active < very_active < extra_active`
used by the spec's activity-monotonicity property. -/
def actIdx : ActivityLevel → ℕ
  | .sedentary => 0
  | .lightly_active => 1
  | .moderately_active => 2
  | .very_active => 3
  | .extra_active => 4

/-- `calculateTDEE` from `nutrition.ts`. -/
def calculateTDEE (bmr : ℚ) (activityLevel : ActivityLevel) : ℚ :=
  bmr * ACTIVITY_MULTIPLIERS activityLevel

/-- `calculateCalorieTarget` from `nutrition.ts`: goal-based percentage
adjustment of TDEE, rounded. -/
def calculateCalorieTarget (tdee : ℚ) (goalType : GoalType) : ℤ :=
  match goalType with
  | .lose => jsRound (tdee * 0.80)
  | .gain => jsRound (tdee * 1.10)
  | .maintain => jsRound tdee

/-- Return record of `calculateMacroTargets` in `nutrition.ts`. -/
structure MacroTargets where
  protein : ℤ
  carbs : ℤ
  fat : ℤ
  calculatedCalories : ℤ
  proteinPerKg : ℚ
  fatPercent : ℚ
deriving DecidableEq, Repr

/-- `calculateMacroTargets` from `nutrition.ts`. The optional `weightKg`
parameter defaults to 70 via `weightKg || 70` (absent or zero, i.e. falsy,
falls back to 70). The source's underscore-prefixed record fields are
embedded without the underscore. -/
def calculateMacroTargets (calorieTarget : ℚ) (goalType : GoalType)
    (weightKg : Option ℚ) : MacroTargets :=
  let weight : ℚ :=
    match weightKg with
    | some w => if w = 0 then 70 else w
    | none => 70
  let pf : ℚ × ℚ :=
    match goalType with
    | .lose => (2.0, 0.25)
    | .gain => (1.8, 0.25)
    | .maintain => (1.6, 0.25)
  let proteinPerKg := pf.1
  let fatPercent := pf.2
  let protein := jsRound (weight * proteinPerKg)
  let proteinCalories := protein * 4
  let fatCalories := calorieTarget * fatPercent
  let fat := jsRound (fatCalories / 9)
  let carbCalories := calorieTarget - (proteinCalories : ℚ) - (fat : ℚ) * 9
  let carbs := jsRound (max 0 carbCalories / 4)
  let totalCalories := protein * 4 + carbs * 4 + fat * 9
  { protein := protein, carbs := carbs, fat := fat,
    calculatedCalories := totalCalories,
    proteinPerKg := proteinPerKg, fatPercent := fatPercent }

/-- A body profile, the input of the target pipeline (spec's `BodyProfile`). -/
structure BodyProfile where
  weightKg : ℚ
  heightCm : ℚ
  ageYears : ℚ
  gender : Gender
  activityLevel : ActivityLevel
  goalType : GoalType

/-- Daily targets produced by the target pipeline (spec's `DailyTargets`). -/
structure DailyTargets where
  calories : ℤ
  proteinGrams : ℤ
  carbsGrams : ℤ
  fatGrams : ℤ
deriving DecidableEq, Repr

/-- The target pipeline: `calculateBMR`, then `calculateTDEE`, then
`calculateCalorieTarget`, then `calculateMacroTargets` with the profile's
weight — the composition the spec calls `computeDailyTargets`. -/
def computeDailyTargets (p : BodyProfile) : DailyTargets :=
  let bmr := calculateBMR p.weightKg p.heightCm p.ageYears p.gender
  let tdee := calculateTDEE bmr p.activityLevel
  let target := calculateCalorieTarget tdee p.goalType
  let m := calculateMacroTargets (target : ℚ) p.goalType (some p.weightKg)
  { calories := target, proteinGrams := m.protein,
    carbsGrams := m.carbs, fatGrams := m.fat }

/-- The `Food` record from `nutrition.ts`. -/
structure Food where
  id : String
  name : String
  category : FoodCategory
  calories_per_serving : ℚ
  protein_grams : ℚ
  carbs_grams : ℚ
  fat_grams : ℚ
  serving_size : String
  serving_grams : ℚ
  is_system_food : Bool
  created_by : Option String
  created_at : String
deriving DecidableEq, Repr

inductive QuantityUnit
| g | ml | serving
deriving DecidableEq, Repr

/-- `NutritionResult` from `nutritionCalculator.ts`. -/
structure NutritionResult where
  calories : ℤ
  protein : ℚ
  carbs : ℚ
  fat : ℚ
  displayQuantity : String
deriving DecidableEq, Repr

/-- The per-100-base-units nutrition block of `CalculationBreakdown`. -/
structure PerBaseNutrition where
  calories : ℚ
  protein : ℚ
  carbs : ℚ
  fat : ℚ
deriving DecidableEq, Repr

/-- `CalculationBreakdown` from `nutritionCalculator.ts`; the `baseUnit`
union type `'g' | 'ml'` is embedded as the corresponding string. -/
structure CalculationBreakdown where
  baseAmount : ℚ
  baseUnit : String
  perBaseNutrition : PerBaseNutrition
  multiplier : ℚ
  finalNutrition : NutritionResult
deriving DecidableEq, Repr

/-- `isLiquid` from `nutritionCalculator.ts`: category equals `beverages`. -/
def isLiquid (category : FoodCategory) : Bool :=
  category = FoodCategory.beverages

/-- The `food.serving_grams || 100` fallback used by `calculateNutrition`
and `getCalculationBreakdown`: a falsy (zero) serving size becomes 100. -/
def fallbackServingGrams (sg : ℚ) : ℚ :=
  if sg = 0 then 100 else sg

/-- Decimal rendering of a rational inside a template string; it agrees with
the JavaScript number-to-string conversion on integral values, the only
values this development compares concretely. -/
def numStr (q : ℚ) : String :=
  if q.den = 1 then toString q.num else toString q

/-- `calculateNutrition` from `nutritionCalculator.ts`: scale the per-serving
facts by a unit-dependent multiplier, rounding only at the end. -/
def calculateNutrition (food : Food) (quantity : ℚ) (unit : QuantityUnit) :
    NutritionResult :=
  let servingGrams := fallbackServingGrams food.serving_grams
  let multiplier : ℚ :=
    match unit with
    | .g => quantity / servingGrams
    | .ml => quantity / servingGrams
    | .serving => quantity
  let displayQuantity : String :=
    match unit with
    | .g => numStr quantity ++ "g"
    | .ml => numStr quantity ++ "ml"
    | .serving =>
        numStr quantity ++ " "
          ++ (if quantity = 1 then "serving" else "servings")
          ++ " (" ++ toString (jsRound (quantity * servingGrams))
          ++ (if isLiquid food.category then "ml" else "g") ++ ")"
  let rawCalories := food.calories_per_serving * multiplier
  let rawProtein := food.protein_grams * multiplier
  let rawCarbs := food.carbs_grams * multiplier
  let rawFat := food.fat_grams * multiplier
  { calories := jsRound rawCalories,
    protein := roundToDecimal rawProtein 1,
    carbs := roundToDecimal rawCarbs 1,
    fat := roundToDecimal rawFat 1,
    displayQuantity := displayQuantity }

/-- `getCalculationBreakdown` from `nutritionCalculator.ts`: transparency
view exposing per-100 nutrition and the multiplier, with `finalNutrition`
taken from `calculateNutrition`. -/
def getCalculationBreakdown (food : Food) (quantity : ℚ)
    (unit : QuantityUnit) : CalculationBreakdown :=
  let servingGrams := fallbackServingGrams food.serving_grams
  let baseUnit : String := if isLiquid food.category then "ml" else "g"
  let per100 : PerBaseNutrition :=
    { calories := food.calories_per_serving / servingGrams * 100,
      protein := food.protein_grams / servingGrams * 100,
      carbs := food.carbs_grams / servingGrams * 100,
      fat := food.fat_grams / servingGrams * 100 }
  let multiplier : ℚ :=
    match unit with
    | .g => quantity / servingGrams
    | .ml => quantity / servingGrams
    | .serving => quantity
  let finalNutrition := calculateNutrition food quantity unit
  { baseAmount := 100,
    baseUnit := baseUnit,
    perBaseNutrition :=
      { calories := roundToDecimal per100.calories 1,
        protein := roundToDecimal per100.protein 1,
        carbs := roundToDecimal per100.carbs 1,
        fat := roundToDecimal per100.fat 1 },
    multiplier := roundToDecimal multiplier 2,
    finalNutrition := finalNutrition }

/-- Return record of `validateMacroCalorieMatch`. -/
structure MacroValidation where
  isValid : Bool
  calculatedCalories : ℤ
  difference : ℤ
deriving DecidableEq, Repr

/-- `validateMacroCalorieMatch` from `nutritionCalculator.ts`: compares the
stated calories with `4*protein + 4*carbs + 9*fat` under a
5-percent-or-5-calories tolerance; always returns a value. -/
def validateMacroCalorieMatch (calories protein carbs fat : ℚ) :
    MacroValidation :=
  let calculatedCalories := protein * 4 + carbs * 4 + fat * 9
  let difference := |calories - calculatedCalories|
  let tolerance := calories * 0.05
  { isValid := decide (difference ≤ tolerance) || decide (difference ≤ 5),
    calculatedCalories := jsRound calculatedCalories,
    difference := jsRound difference }

/-- A concrete grains food used as counterexample and witness input. -/
def sampleFood : Food :=
  { id := "food-1", name := "Oats", category := .grains,
    calories_per_serving := 300, protein_grams := 10, carbs_grams := 50,
    fat_grams := 5, serving_size := "100 g", serving_grams := 100,
    is_system_food := true, created_by := none, created_at := "" }

/-- A concrete food whose stored serving size is the falsy value 0. -/
def zeroServingFood : Food :=
  { id := "food-2", name := "Broth", category := .beverages,
    calories_per_serving := 40, protein_grams := 2, carbs_grams := 3,
    fat_grams := 1, serving_size := "", serving_grams := 0,
    is_system_food := false, created_by := some "user-1", created_at := "" }

/-- Evaluation rule for `jsRound` at a known integer result. -/
theorem jsRound_eq_of {x : ℚ} {n : ℤ} (h1 : (n : ℚ) ≤ x + 1/2)
    (h2 : x + 1/2 < (n : ℚ) + 1) : jsRound x = n := by
  rw [jsRound]
  exact Int.floor_eq_iff.mpr ⟨h1, h2⟩

/-- `jsRound` is monotone. -/
theorem jsRound_mono {x y : ℚ} (h : x ≤ y) : jsRound x ≤ jsRound y := by
  rw [jsRound, jsRound]
  exact Int.floor_le_floor (by linarith)

/-- C1: the target pipeline on the profile weightKg=70, heightCm=175,
ageYears=30, male, moderately_active, lose, does not yield BMR = 1073.75:
the Mifflin-St Jeor value is 1648.75 (the spec miscomputed 6.25*175). -/
theorem c1_counterexample :
    calculateBMR 70 175 30 Gender.male = 1648.75 ∧ (1648.75 : ℚ) ≠ 1073.75 := by
  constructor
  · norm_num [calculateBMR]
  · norm_num

/-- Evaluation of `calculateMacroTargets` at target 2044, goal lose,
weight 70 kg. -/
theorem macroTargets_at_2044_lose_70 :
    calculateMacroTargets 2044 GoalType.lose (some 70) =
      ⟨140, 243, 57, 2045, 2, 1/4⟩ := by
  have hp : jsRound ((140 : ℚ)) = 140 := by
    apply jsRound_eq_of <;> norm_num
  have hf : jsRound ((511 : ℚ) / 9) = 57 := by
    apply jsRound_eq_of <;> norm_num
  have hcb : jsRound ((971 : ℚ) / 4) = 243 := by
    apply jsRound_eq_of <;> norm_num
  norm_num [calculateMacroTargets, hp, hf, hcb]

/-- Evaluation of the target pipeline at the spec's concrete profile. -/
theorem computeDailyTargets_c1profile :
    computeDailyTargets
      ⟨70, 175, 30, Gender.male, ActivityLevel.moderately_active,
        GoalType.lose⟩ = ⟨2044, 140, 243, 57⟩ := by
  have hb : calculateBMR 70 175 30 Gender.male = 1648.75 := by
    norm_num [calculateBMR]
  have ht : calculateTDEE 1648.75 ActivityLevel.moderately_active =
      2555.5625 := by
    norm_num [calculateTDEE, ACTIVITY_MULTIPLIERS]
  have hc : calculateCalorieTarget 2555.5625 GoalType.lose = 2044 := by
    show jsRound (2555.5625 * 0.80) = 2044
    apply jsRound_eq_of <;> norm_num
  show DailyTargets.mk _ _ _ _ = _
  rw [hb, ht, hc]
  push_cast
  rw [macroTargets_at_2044_lose_70]

/-- C1 (amended): on that profile the pipeline yields BMR = 1648.75,
TDEE = 2555.5625, calorie target 2044, protein 140 g, fat 57 g and
carbs 243 g. -/
theorem c1_pipeline_values :
    calculateBMR 70 175 30 Gender.male = 1648.75 ∧
    calculateTDEE (calculateBMR 70 175 30 Gender.male)
      ActivityLevel.moderately_active = 2555.5625 ∧
    calculateCalorieTarget 2555.5625 GoalType.lose = 2044 ∧
    (calculateMacroTargets 2044 GoalType.lose (some 70)).protein = 140 ∧
    (calculateMacroTargets 2044 GoalType.lose (some 70)).fat = 57 ∧
    (calculateMacroTargets 2044 GoalType.lose (some 70)).carbs = 243 ∧
    computeDailyTargets
      ⟨70, 175, 30, Gender.male, ActivityLevel.moderately_active,
        GoalType.lose⟩ = ⟨2044, 140, 243, 57⟩ := by
  have hb : calculateBMR 70 175 30 Gender.male = 1648.75 := by
    norm_num [calculateBMR]
  have ht : calculateTDEE 1648.75 ActivityLevel.moderately_active =
      2555.5625 := by
    norm_num [calculateTDEE, ACTIVITY_MULTIPLIERS]
  have hc : calculateCalorieTarget 2555.5625 GoalType.lose = 2044 := by
    show jsRound (2555.5625 * 0.80) = 2044
    apply jsRound_eq_of <;> norm_num
  exact ⟨hb, by rw [hb]; exact ht, hc,
    by rw [macroTargets_at_2044_lose_70],
    by rw [macroTargets_at_2044_lose_70],
    by rw [macroTargets_at_2044_lose_70],
    computeDailyTargets_c1profile⟩

/-- C5: for every weight, height and age, the male BMR exceeds the female
BMR by exactly 166, and gender `other` gets the female value. -/
theorem c5_gender_offsets (w h a : ℚ) :
    calculateBMR w h a Gender.male = calculateBMR w h a Gender.female + 166 ∧
    calculateBMR w h a Gender.other = calculateBMR w h a Gender.female := by
  constructor
  · simp only [calculateBMR]
    ring
  · rfl

/-- C9: the `finalNutrition` field of the calculation breakdown is exactly
the value of `calculateNutrition`; the display roundings never feed it. -/
theorem c9_breakdown_final_eq (food : Food) (q : ℚ) (u : QuantityUnit) :
    (getCalculationBreakdown food q u).finalNutrition =
      calculateNutrition food q u := rfl

/-- C3: the claim fails on the `displayQuantity` field: for grams the
display string ends in "g" and for milliliters in "ml", so the two results
are not equal field-for-field. -/
theorem c3_counterexample :
    (calculateNutrition sampleFood 50 QuantityUnit.g).displayQuantity =
      "50g" ∧
    (calculateNutrition sampleFood 50 QuantityUnit.ml).displayQuantity =
      "50ml" ∧
    calculateNutrition sampleFood 50 QuantityUnit.g ≠
      calculateNutrition sampleFood 50 QuantityUnit.ml := by
  have hg : (calculateNutrition sampleFood 50 QuantityUnit.g).displayQuantity
      = "50g" := by
    simp only [calculateNutrition]
    decide
  have hml :
      (calculateNutrition sampleFood 50 QuantityUnit.ml).displayQuantity
      = "50ml" := by
    simp only [calculateNutrition]
    decide
  refine ⟨hg, hml, fun hcontra => ?_⟩
  have : ("50g" : String) = "50ml" := by rw [← hg, ← hml, hcontra]
  exact absurd this (by decide)

/-- C3 (amended): for every food and quantity, grams and milliliters give
the same calories, protein, carbs and fat; only the display string
differs. -/
theorem c3_g_ml_numeric_eq (food : Food) (q : ℚ) :
    (calculateNutrition food q QuantityUnit.g).calories =
      (calculateNutrition food q QuantityUnit.ml).calories ∧
    (calculateNutrition food q QuantityUnit.g).protein =
      (calculateNutrition food q QuantityUnit.ml).protein ∧
    (calculateNutrition food q QuantityUnit.g).carbs =
      (calculateNutrition food q QuantityUnit.ml).carbs ∧
    (calculateNutrition food q QuantityUnit.g).fat =
      (calculateNutrition food q QuantityUnit.ml).fat :=
  ⟨rfl, rfl, rfl, rfl⟩

/-- C4: the validator flags a record invalid exactly when the absolute
difference between the stated calories and `4*protein + 4*carbs + 9*fat`
exceeds the larger of 5 percent of the calories and 5; on (100,0,0,0) it
returns calculatedCalories 0, difference 100 and isValid false. -/
theorem c4_validator_spec :
    (∀ calories protein carbs fat : ℚ,
      (validateMacroCalorieMatch calories protein carbs fat).isValid = false
        ↔ max (calories * 0.05) 5 <
            |calories - (4 * protein + 4 * carbs + 9 * fat)|) ∧
    (validateMacroCalorieMatch 100 0 0 0).calculatedCalories = 0 ∧
    (validateMacroCalorieMatch 100 0 0 0).difference = 100 ∧
    (validateMacroCalorieMatch 100 0 0 0).isValid = false := by
  have h0 : jsRound ((0 : ℚ)) = 0 := by
    apply jsRound_eq_of <;> norm_num
  have h100 : jsRound ((100 : ℚ)) = 100 := by
    apply jsRound_eq_of <;> norm_num
  refine ⟨fun c p cb f => ?_, ?_, ?_, ?_⟩
  · have harg : c - (p * 4 + cb * 4 + f * 9) =
        c - (4 * p + 4 * cb + 9 * f) := by ring
    simp only [validateMacroCalorieMatch, harg, Bool.or_eq_false_iff,
      decide_eq_false_iff_not, not_le, max_lt_iff]
  · norm_num [validateMacroCalorieMatch, h0]
  · norm_num [validateMacroCalorieMatch, h0, h100, abs_of_nonneg]
  · norm_num [validateMacroCalorieMatch, abs_of_nonneg]

/-- C7: for any food with serving_grams 150 and calories_per_serving 300,
one serving gives 300 calories, 150 g gives 300 calories, and 75 g gives
150 calories. -/
theorem c7_serving_gram_conversions (p c f : ℚ) (cat : FoodCategory)
    (idv nm ss ca : String) (sys : Bool) (cb : Option String) :
    (calculateNutrition ⟨idv, nm, cat, 300, p, c, f, ss, 150, sys, cb, ca⟩
        1 QuantityUnit.serving).calories = 300 ∧
    (calculateNutrition ⟨idv, nm, cat, 300, p, c, f, ss, 150, sys, cb, ca⟩
        150 QuantityUnit.g).calories = 300 ∧
    (calculateNutrition ⟨idv, nm, cat, 300, p, c, f, ss, 150, sys, cb, ca⟩
        75 QuantityUnit.g).calories = 150 := by
  have h300 : jsRound ((300 : ℚ)) = 300 := by
    apply jsRound_eq_of <;> norm_num
  have h150 : jsRound ((150 : ℚ)) = 150 := by
    apply jsRound_eq_of <;> norm_num
  refine ⟨?_, ?_, ?_⟩ <;>
    norm_num [calculateNutrition, fallbackServingGrams, h300, h150]

/-- C8: for every goal, calorie target and positive weight, the carb grams
are nonnegative, clamping at zero even when protein and fat calories
already exceed the target. -/
theorem c8_carbs_nonneg (target : ℚ) (g : GoalType) (w : ℚ) (hw : 0 < w) :
    0 ≤ (calculateMacroTargets target g (some w)).carbs := by
  have hw0 : w ≠ 0 := ne_of_gt hw
  have key : ∀ x : ℚ, 0 ≤ jsRound (max 0 x / 4) := by
    intro x
    rw [jsRound]
    rw [Int.le_floor]
    have hx := le_max_left (0 : ℚ) x
    push_cast
    linarith
  simp only [calculateMacroTargets, if_neg hw0]
  exact key _

/-- Witness for C8 at target 100, goal lose, weight 70. -/
theorem c8_carbs_nonneg_witness :
    (0 : ℚ) < 70 ∧
    0 ≤ (calculateMacroTargets 100 GoalType.lose (some 70)).carbs :=
  ⟨by norm_num, c8_carbs_nonneg 100 GoalType.lose 70 (by norm_num)⟩

/-- Four times the rounded quarter of an integer stays within 2 of it. -/
theorem jsRound_quarter_bound (n : ℤ) :
    |4 * jsRound ((n : ℚ) / 4) - n| ≤ 2 := by
  have h1 : ((jsRound ((n : ℚ) / 4) : ℤ) : ℚ) ≤ (n : ℚ) / 4 + 1/2 := by
    rw [jsRound]
    exact Int.floor_le _
  have h2 : (n : ℚ) / 4 + 1/2 - 1 < ((jsRound ((n : ℚ) / 4) : ℤ) : ℚ) := by
    rw [jsRound]
    exact Int.sub_one_lt_floor _
  rw [abs_le]
  constructor
  · have hq : (-2 : ℚ) < 4 * ((jsRound ((n : ℚ) / 4) : ℤ) : ℚ) - n := by
      linarith
    have hz : (-2 : ℤ) < 4 * jsRound ((n : ℚ) / 4) - n := by exact_mod_cast hq
    omega
  · have hq : 4 * ((jsRound ((n : ℚ) / 4) : ℤ) : ℚ) - n ≤ 2 := by linarith
    exact_mod_cast hq

/-- When protein and fat calories do not exceed the target, the macro
reconstruction (with the carb remainder rounded) stays within 2 calories
of the target. -/
theorem reconstruct_bound (target P F : ℤ) (h : 4 * P + 9 * F ≤ target) :
    |4 * P +
        4 * jsRound
          (max 0 ((target : ℚ) - ((P * 4 : ℤ) : ℚ) - (F : ℚ) * 9) / 4) +
        9 * F - target| ≤ 2 := by
  have hn : ((target - 4 * P - 9 * F : ℤ) : ℚ) =
      (target : ℚ) - ((P * 4 : ℤ) : ℚ) - (F : ℚ) * 9 := by
    push_cast
    ring
  have hge : (0 : ℤ) ≤ target - 4 * P - 9 * F := by omega
  have hnn : (0 : ℚ) ≤ ((target - 4 * P - 9 * F : ℤ) : ℚ) := by
    exact_mod_cast hge
  rw [← hn, max_eq_right hnn]
  have hrw : 4 * P + 4 * jsRound (((target - 4 * P - 9 * F : ℤ) : ℚ) / 4) +
        9 * F - target =
      4 * jsRound (((target - 4 * P - 9 * F : ℤ) : ℚ) / 4) -
        (target - 4 * P - 9 * F) := by
    ring
  rw [hrw]
  exact jsRound_quarter_bound _

/-- C2: the claim fails when the carb remainder is clamped at zero: on the
profile weightKg=70, heightCm=1, ageYears=100, female, sedentary, lose,
the reconstructed macro calories exceed the calorie target by 526, far
beyond any rounding tolerance. -/
theorem c2_counterexample :
    computeDailyTargets
      ⟨70, 1, 100, Gender.female, ActivityLevel.sedentary, GoalType.lose⟩ =
      ⟨43, 140, 0, 1⟩ ∧
    ¬(|4 * (computeDailyTargets
          ⟨70, 1, 100, Gender.female, ActivityLevel.sedentary,
            GoalType.lose⟩).proteinGrams +
        4 * (computeDailyTargets
          ⟨70, 1, 100, Gender.female, ActivityLevel.sedentary,
            GoalType.lose⟩).carbsGrams +
        9 * (computeDailyTargets
          ⟨70, 1, 100, Gender.female, ActivityLevel.sedentary,
            GoalType.lose⟩).fatGrams -
        (computeDailyTargets
          ⟨70, 1, 100, Gender.female, ActivityLevel.sedentary,
            GoalType.lose⟩).calories| ≤ 10) := by
  have hb : calculateBMR 70 1 100 Gender.female = 45.25 := by
    norm_num [calculateBMR]
  have ht : calculateTDEE 45.25 ActivityLevel.sedentary = 54.3 := by
    norm_num [calculateTDEE, ACTIVITY_MULTIPLIERS]
  have hc : calculateCalorieTarget 54.3 GoalType.lose = 43 := by
    show jsRound (54.3 * 0.80) = 43
    apply jsRound_eq_of <;> norm_num
  have hp : jsRound ((140 : ℚ)) = 140 := by
    apply jsRound_eq_of <;> norm_num
  have hf : jsRound ((43 : ℚ) / 36) = 1 := by
    apply jsRound_eq_of <;> norm_num
  have h0 : jsRound ((0 : ℚ)) = 0 := by
    apply jsRound_eq_of <;> norm_num
  have hm : calculateMacroTargets 43 GoalType.lose (some 70) =
      ⟨140, 0, 1, 569, 2, 1/4⟩ := by
    norm_num [calculateMacroTargets, hp, hf, h0]
  have hDT : computeDailyTargets
      ⟨70, 1, 100, Gender.female, ActivityLevel.sedentary, GoalType.lose⟩ =
      ⟨43, 140, 0, 1⟩ := by
    show DailyTargets.mk _ _ _ _ = _
    rw [hb, ht, hc]
    push_cast
    rw [hm]
  refine ⟨hDT, ?_⟩
  rw [hDT]
  decide

/-- C2 (amended): for every valid profile, whenever the protein and fat
calories do not already exceed the calorie target (no zero-clamping of
carbs), the reconstructed macro calories are within 2 of the target. -/
theorem c2_macro_calorie_invariant (p : BodyProfile)
    (hw : 0 < p.weightKg) (hh : 0 < p.heightCm) (ha : 0 < p.ageYears)
    (hcc : 4 * (computeDailyTargets p).proteinGrams +
        9 * (computeDailyTargets p).fatGrams ≤
        (computeDailyTargets p).calories) :
    |4 * (computeDailyTargets p).proteinGrams +
        4 * (computeDailyTargets p).carbsGrams +
        9 * (computeDailyTargets p).fatGrams -
        (computeDailyTargets p).calories| ≤ 2 := by
  simp only [computeDailyTargets, calculateMacroTargets] at hcc ⊢
  exact reconstruct_bound _ _ _ hcc

/-- Witness for C2 at the spec's concrete profile. -/
theorem c2_macro_calorie_invariant_witness :
    (0 : ℚ) < 70 ∧ (0 : ℚ) < 175 ∧ (0 : ℚ) < 30 ∧
    4 * (computeDailyTargets
        ⟨70, 175, 30, Gender.male, ActivityLevel.moderately_active,
          GoalType.lose⟩).proteinGrams +
      9 * (computeDailyTargets
        ⟨70, 175, 30, Gender.male, ActivityLevel.moderately_active,
          GoalType.lose⟩).fatGrams ≤
      (computeDailyTargets
        ⟨70, 175, 30, Gender.male, ActivityLevel.moderately_active,
          GoalType.lose⟩).calories ∧
    |4 * (computeDailyTargets
        ⟨70, 175, 30, Gender.male, ActivityLevel.moderately_active,
          GoalType.lose⟩).proteinGrams +
      4 * (computeDailyTargets
        ⟨70, 175, 30, Gender.male, ActivityLevel.moderately_active,
          GoalType.lose⟩).carbsGrams +
      9 * (computeDailyTargets
        ⟨70, 175, 30, Gender.male, ActivityLevel.moderately_active,
          GoalType.lose⟩).fatGrams -
      (computeDailyTargets
        ⟨70, 175, 30, Gender.male, ActivityLevel.moderately_active,
          GoalType.lose⟩).calories| ≤ 2 := by
  refine ⟨by norm_num, by norm_num, by norm_num, ?_, ?_⟩
  · rw [computeDailyTargets_c1profile]
    decide
  · exact c2_macro_calorie_invariant _ (by norm_num) (by norm_num)
      (by norm_num) (by rw [computeDailyTargets_c1profile]; decide)

/-- C6: the claim fails for the positive BMR 1: TDEE strictly increases
from sedentary to lightly_active, but both activity levels give the same
calorie target 1 under goal lose, so the target does not strictly
increase. -/
theorem c6_counterexample :
    (0 : ℚ) < 1 ∧
    calculateTDEE 1 ActivityLevel.sedentary <
      calculateTDEE 1 ActivityLevel.lightly_active ∧
    calculateCalorieTarget (calculateTDEE 1 ActivityLevel.sedentary)
        GoalType.lose =
      calculateCalorieTarget (calculateTDEE 1 ActivityLevel.lightly_active)
        GoalType.lose := by
  have hs : calculateTDEE 1 ActivityLevel.sedentary = 1.2 := by
    norm_num [calculateTDEE, ACTIVITY_MULTIPLIERS]
  have hl : calculateTDEE 1 ActivityLevel.lightly_active = 1.375 := by
    norm_num [calculateTDEE, ACTIVITY_MULTIPLIERS]
  have h1 : calculateCalorieTarget 1.2 GoalType.lose = 1 := by
    show jsRound (1.2 * 0.80) = 1
    apply jsRound_eq_of <;> norm_num
  have h2 : calculateCalorieTarget 1.375 GoalType.lose = 1 := by
    show jsRound (1.375 * 0.80) = 1
    apply jsRound_eq_of <;> norm_num
  refine ⟨by norm_num, ?_, ?_⟩
  · rw [hs, hl]
    norm_num
  · rw [hs, hl, h1, h2]

/-- C6 (amended): for every positive BMR and every goal, a higher activity
level strictly increases the TDEE and weakly increases the rounded calorie
target (strictness of the target can be lost to rounding). -/
theorem c6_activity_monotonicity (bmr : ℚ) (hb : 0 < bmr) (g : GoalType)
    (a1 a2 : ActivityLevel) (h12 : actIdx a1 < actIdx a2) :
    calculateTDEE bmr a1 < calculateTDEE bmr a2 ∧
    calculateCalorieTarget (calculateTDEE bmr a1) g ≤
      calculateCalorieTarget (calculateTDEE bmr a2) g := by
  have hm : ACTIVITY_MULTIPLIERS a1 < ACTIVITY_MULTIPLIERS a2 := by
    cases a1 <;> cases a2 <;> simp_all [actIdx] <;>
      norm_num [ACTIVITY_MULTIPLIERS]
  have htd : calculateTDEE bmr a1 < calculateTDEE bmr a2 := by
    simp only [calculateTDEE]
    exact mul_lt_mul_of_pos_left hm hb
  have hle : calculateTDEE bmr a1 ≤ calculateTDEE bmr a2 := le_of_lt htd
  refine ⟨htd, ?_⟩
  cases g
  · exact jsRound_mono (by linarith)
  · exact jsRound_mono hle
  · exact jsRound_mono (by linarith)

/-- Witness for C6 at BMR 10, goal lose, sedentary versus extra_active. -/
theorem c6_activity_monotonicity_witness :
    (0 : ℚ) < 10 ∧
    actIdx ActivityLevel.sedentary < actIdx ActivityLevel.extra_active ∧
    (calculateTDEE 10 ActivityLevel.sedentary <
        calculateTDEE 10 ActivityLevel.extra_active ∧
      calculateCalorieTarget (calculateTDEE 10 ActivityLevel.sedentary)
          GoalType.lose ≤
        calculateCalorieTarget (calculateTDEE 10 ActivityLevel.extra_active)
          GoalType.lose) :=
  ⟨by norm_num, by norm_num [actIdx],
    c6_activity_monotonicity 10 (by norm_num) GoalType.lose
      ActivityLevel.sedentary ActivityLevel.extra_active
      (by norm_num [actIdx])⟩

/-- C10: a zero (falsy) stored serving size is replaced by 100, so the
results coincide with those for the same food with serving size 100, and
the divisor used for the gram and milliliter units is never zero. -/
theorem c10_zero_serving_fallback (food : Food) (q : ℚ) (u : QuantityUnit)
    (h : food.serving_grams = 0) :
    calculateNutrition food q u =
      calculateNutrition { food with serving_grams := 100 } q u ∧
    getCalculationBreakdown food q u =
      getCalculationBreakdown { food with serving_grams := 100 } q u ∧
    fallbackServingGrams food.serving_grams ≠ 0 := by
  have h1 : fallbackServingGrams food.serving_grams = 100 := by
    rw [h]
    norm_num [fallbackServingGrams]
  have h2 : fallbackServingGrams (100 : ℚ) = 100 := by
    norm_num [fallbackServingGrams]
  refine ⟨?_, ?_, by rw [h1]; norm_num⟩
  · cases u <;> simp [calculateNutrition, h1, h2]
  · cases u <;> simp [getCalculationBreakdown, calculateNutrition, h1, h2]

/-- Witness for C10 on a concrete beverage stored with serving size 0. -/
theorem c10_zero_serving_fallback_witness :
    zeroServingFood.serving_grams = 0 ∧
    (calculateNutrition zeroServingFood 50 QuantityUnit.g =
        calculateNutrition { zeroServingFood with serving_grams := 100 } 50
          QuantityUnit.g ∧
      getCalculationBreakdown zeroServingFood 50 QuantityUnit.g =
        getCalculationBreakdown
          { zeroServingFood with serving_grams := 100 } 50 QuantityUnit.g ∧
      fallbackServingGrams zeroServingFood.serving_grams ≠ 0) :=
  ⟨rfl, c10_zero_serving_fallback zeroServingFood 50 QuantityUnit.g rfl⟩

end NutriTrack
